import Mathlib

/-!
# Verification of the load-balancer observability analytics engine

Shallow embedding of `dashboard_engine.py` (KPI / traffic-pattern / anomaly
computation) and `sql_injector.py` (batched, retrying warehouse writes) from
the Load-Balancer-Analytics-at-Hyperscale repository, together with proofs of
the specification claims about them.

Conventions of the embedding:
* pandas float columns are modelled as exact rationals (`ℚ`); the one place
  the code takes a square root (the anomaly threshold) is modelled in `ℝ`;
* timestamps are modelled as natural numbers of milliseconds since the epoch
  (the warehouse stores `DATETIME2(3)`, i.e. millisecond precision);
* Python's `round(x, n)` (numpy/pandas `.round(n)`) rounds half to even;
  it is modelled by `roundHalfEven` below;
* dataframes are lists of records; `groupby` keys are the deduplicated list
  of column values (the order of distinct keys is not load-bearing for any
  claim proved here);
* fallible calls return `Except`; the environment (database failures) is
  modelled by an explicit failure oracle passed to the warehouse functions.
-/

namespace LBA

/-- A request-log record (`RequestLogs` row / request CSV row). -/
structure RequestRecord where
  timestampMs : ℕ
  server_id : String
  region : String
  request_method : String
  status_code : ℤ
  response_time_ms : ℚ
  retry_rate : ℚ
  bytes_sent : ℤ
deriving DecidableEq

/-- A server-metric record (`ServerMetrics` row / server CSV row). -/
structure ServerMetricRecord where
  timestampMs : ℕ
  server_id : String
  cpu_usage_percent : ℚ
  memory_usage_percent : ℚ
  disk_usage_percent : ℚ
  network_in_mbps : ℚ
  network_out_mbps : ℚ
  active_connections : ℤ
  requests_per_second : ℚ
  backend_health_failures : ℤ
deriving DecidableEq

/-! ## Arithmetic helpers shared by the analytics code -/

/-- pandas `Series.mean()`: sum divided by length (on an empty series the
division by zero yields `0` in `ℚ`; the claims proved below about means all
concern nonempty samples). -/
def qmean (xs : List ℚ) : ℚ := xs.sum / xs.length

/-- Python / numpy rounding of a number to the nearest integer, rounding
halves to the even neighbour (banker's rounding, the semantics of `round`). -/
def roundHalfEven (x : ℚ) : ℤ :=
  if x - ⌊x⌋ < 1/2 then ⌊x⌋
  else if 1/2 < x - ⌊x⌋ then ⌊x⌋ + 1
  else if ⌊x⌋ % 2 = 0 then ⌊x⌋ else ⌊x⌋ + 1

/-- Python `round(x, 2)`, as a rational. -/
def round2 (x : ℚ) : ℚ := (roundHalfEven (100 * x) : ℚ) / 100

/-- Python `round(x, 3)`, as a rational. -/
def round3 (x : ℚ) : ℚ := (roundHalfEven (1000 * x) : ℚ) / 1000

theorem roundHalfEven_mono {x y : ℚ} (h : x ≤ y) :
    roundHalfEven x ≤ roundHalfEven y := by
  have hfl : (⌊x⌋ : ℤ) ≤ ⌊y⌋ := Int.floor_le_floor h
  rcases lt_or_eq_of_le hfl with hlt | heq
  · -- different floors: the left value is at most `⌊x⌋ + 1 ≤ ⌊y⌋`,
    -- the right value is at least `⌊y⌋`
    have hle : roundHalfEven x ≤ ⌊x⌋ + 1 := by
      unfold roundHalfEven; split_ifs <;> omega
    have hge : (⌊y⌋ : ℤ) ≤ roundHalfEven y := by
      unfold roundHalfEven; split_ifs <;> omega
    omega
  · -- equal floors: compare the fractional parts
    have hfx : (⌊x⌋ : ℚ) ≤ x := Int.floor_le x
    have hfy : (⌊y⌋ : ℚ) ≤ y := Int.floor_le y
    unfold roundHalfEven
    rw [← heq]
    have hxy : x - ⌊x⌋ ≤ y - ⌊x⌋ := by linarith
    split_ifs <;> first | omega | linarith

theorem round2_mono {x y : ℚ} (h : x ≤ y) : round2 x ≤ round2 y := by
  unfold round2
  have h100 : (100 : ℚ) * x ≤ 100 * y := by linarith
  have := roundHalfEven_mono h100
  have hc : ((roundHalfEven (100 * x) : ℤ) : ℚ) ≤ ((roundHalfEven (100 * y) : ℤ) : ℚ) := by
    exact_mod_cast this
  linarith

/-! ## Linear-interpolation quantile (pandas `Series.quantile`, numpy default) -/

/-- Ascending sort of a rational sample (the sorting algorithm pandas uses is
irrelevant: only the sorted order matters). -/
def sortQ (xs : List ℚ) : List ℚ := xs.insertionSort (· ≤ ·)

/-- Linear interpolation into a sorted sample at real position `pos`:
value `s[⌊pos⌋] + (pos − ⌊pos⌋) · (s[⌈pos⌉] − s[⌊pos⌋])`, with the upper index
clamped to the last element. -/
def interpSorted (s : List ℚ) (pos : ℚ) : ℚ :=
  let lo : ℕ := (⌊pos⌋).toNat
  let hi : ℕ := min (lo + 1) (s.length - 1)
  s.getD lo 0 + (pos - ⌊pos⌋) * (s.getD hi 0 - s.getD lo 0)

/-- pandas `Series.quantile(q)` with the default linear interpolation: interpolate the
sorted sample at position `q · (n − 1)`. -/
def quantileQ (xs : List ℚ) (q : ℚ) : ℚ :=
  interpSorted (sortQ xs) (q * ((xs.length : ℚ) - 1))

theorem sortQ_sorted (xs : List ℚ) : (sortQ xs).Sorted (· ≤ ·) :=
  List.sorted_insertionSort _ xs

theorem sortQ_length (xs : List ℚ) : (sortQ xs).length = xs.length :=
  (List.perm_insertionSort _ xs).length_eq

/-- Monotone access into a sorted list through `getD`. -/
theorem getD_mono_of_sorted {s : List ℚ} (hs : s.Sorted (· ≤ ·)) {i j : ℕ}
    (hij : i ≤ j) (hj : j < s.length) : s.getD i 0 ≤ s.getD j 0 := by
  have hi : i < s.length := lt_of_le_of_lt hij hj
  rw [List.getD_eq_get s 0 hi, List.getD_eq_get s 0 hj]
  exact hs.rel_get_of_le (by exact hij)

/-- Within one interpolation cell the value lies between the two endpoints. -/
theorem interpSorted_bounds {s : List ℚ} (hs : s.Sorted (· ≤ ·)) {pos : ℚ}
    (hpos0 : 0 ≤ pos) (hposn : pos ≤ (s.length : ℚ) - 1) :
    s.getD (⌊pos⌋).toNat 0 ≤ interpSorted s pos ∧
    interpSorted s pos ≤ s.getD (min ((⌊pos⌋).toNat + 1) (s.length - 1)) 0 := by
  have hn : 1 ≤ s.length := by
    by_contra hc
    push_neg at hc
    interval_cases h : s.length <;> simp_all
    linarith
  have hfl0 : (0 : ℤ) ≤ ⌊pos⌋ := Int.floor_nonneg.mpr hpos0
  have hflle : (⌊pos⌋ : ℚ) ≤ pos := Int.floor_le pos
  have hlo_lt : (⌊pos⌋).toNat < s.length := by
    have h1 : (⌊pos⌋ : ℚ) ≤ (s.length : ℚ) - 1 := le_trans hflle hposn
    have h2 : ⌊pos⌋ ≤ (s.length : ℤ) - 1 := by exact_mod_cast h1
    omega
  have hhi_lt : min ((⌊pos⌋).toNat + 1) (s.length - 1) < s.length := by omega
  have hlohi : (⌊pos⌋).toNat ≤ min ((⌊pos⌋).toNat + 1) (s.length - 1) := by omega
  have hd : s.getD (⌊pos⌋).toNat 0 ≤ s.getD (min ((⌊pos⌋).toNat + 1) (s.length - 1)) 0 :=
    getD_mono_of_sorted hs hlohi hhi_lt
  have hfrac0 : 0 ≤ pos - ⌊pos⌋ := by linarith
  have hfrac1 : pos - ⌊pos⌋ ≤ 1 := by
    have := Int.lt_floor_add_one pos
    push_cast at this ⊢
    linarith
  simp only [interpSorted]
  have hd0 : 0 ≤ s.getD (min ((⌊pos⌋).toNat + 1) (s.length - 1)) 0 - s.getD (⌊pos⌋).toNat 0 := by
    linarith
  constructor
  · nlinarith [mul_nonneg hfrac0 hd0]
  · nlinarith [mul_nonneg (by linarith : (0:ℚ) ≤ 1 - (pos - ⌊pos⌋)) hd0]

/-- The interpolated quantile is monotone in the position. -/
theorem interpSorted_mono {s : List ℚ} (hs : s.Sorted (· ≤ ·)) {a b : ℚ}
    (ha : 0 ≤ a) (hab : a ≤ b) (hb : b ≤ (s.length : ℚ) - 1) :
    interpSorted s a ≤ interpSorted s b := by
  have hb0 : 0 ≤ b := le_trans ha hab
  have han : a ≤ (s.length : ℚ) - 1 := le_trans hab hb
  have hfl : (⌊a⌋ : ℤ) ≤ ⌊b⌋ := Int.floor_le_floor hab
  have hn : 1 ≤ s.length := by
    by_contra hc
    push_neg at hc
    interval_cases h : s.length <;> simp_all
    linarith
  have hfa0 : (0 : ℤ) ≤ ⌊a⌋ := Int.floor_nonneg.mpr ha
  have hfb0 : (0 : ℤ) ≤ ⌊b⌋ := Int.floor_nonneg.mpr hb0
  rcases lt_or_eq_of_le hfl with hlt | heq
  · -- the positions fall in different cells
    have h1 := (interpSorted_bounds hs ha han).2
    have h2 := (interpSorted_bounds hs hb0 hb).1
    have hb_lt : (⌊b⌋).toNat < s.length := by
      have hq : (⌊b⌋ : ℚ) ≤ (s.length : ℚ) - 1 := le_trans (Int.floor_le b) hb
      have hz : ⌊b⌋ ≤ (s.length : ℤ) - 1 := by exact_mod_cast hq
      omega
    have hidx : min ((⌊a⌋).toNat + 1) (s.length - 1) ≤ (⌊b⌋).toNat := by omega
    have hmid : s.getD (min ((⌊a⌋).toNat + 1) (s.length - 1)) 0 ≤ s.getD (⌊b⌋).toNat 0 :=
      getD_mono_of_sorted hs hidx hb_lt
    linarith
  · -- the positions fall in the same cell: the interpolation is linear there
    have hb_lt : (⌊b⌋).toNat < s.length := by
      have hq : (⌊b⌋ : ℚ) ≤ (s.length : ℚ) - 1 := le_trans (Int.floor_le b) hb
      have hz : ⌊b⌋ ≤ (s.length : ℤ) - 1 := by exact_mod_cast hq
      omega
    have hd : s.getD (⌊b⌋).toNat 0 ≤ s.getD (min ((⌊b⌋).toNat + 1) (s.length - 1)) 0 :=
      getD_mono_of_sorted hs (by omega) (by omega)
    simp only [interpSorted]
    rw [heq]
    nlinarith [mul_nonneg (by linarith : (0:ℚ) ≤ b - a) (by linarith :
      (0:ℚ) ≤ s.getD (min ((⌊b⌋).toNat + 1) (s.length - 1)) 0 - s.getD (⌊b⌋).toNat 0)]

/-- Monotonicity of the sample quantile in the probability level. -/
theorem quantileQ_mono (xs : List ℚ) (hxs : xs ≠ []) {p q : ℚ}
    (hp : 0 ≤ p) (hpq : p ≤ q) (hq : q ≤ 1) :
    quantileQ xs p ≤ quantileQ xs q := by
  have hn : 1 ≤ xs.length := List.length_pos.mpr hxs
  have hn1 : (0 : ℚ) ≤ (xs.length : ℚ) - 1 := by
    have : (1 : ℚ) ≤ (xs.length : ℚ) := by exact_mod_cast hn
    linarith
  unfold quantileQ
  have hlen : ((sortQ xs).length : ℚ) = (xs.length : ℚ) := by
    exact_mod_cast congrArg Nat.cast (sortQ_length xs)
  apply interpSorted_mono (sortQ_sorted xs)
  · exact mul_nonneg hp hn1
  · exact mul_le_mul_of_nonneg_right hpq hn1
  · rw [hlen]
    nlinarith

/-! ## `DashboardEngine.compute_request_kpis` -/

/-- Maximum of a list of naturals (`df['timestamp'].max()`; `0` on an empty
column, which no claim below exercises). -/
def natMax (l : List ℕ) : ℕ := l.foldr max 0

/-- Minimum of a nonempty list of naturals (`df['timestamp'].min()`). -/
def natMin (l : List ℕ) : ℕ :=
  match l with
  | [] => 0
  | x :: xs => xs.foldr min x

/-- Embedding of `(df['timestamp'].max() - df['timestamp'].min()).total_seconds()`. -/
def spanSeconds (df : List RequestRecord) : ℚ :=
  ((natMax (df.map (·.timestampMs)) - natMin (df.map (·.timestampMs)) : ℕ) : ℚ) / 1000

/-- Embedding of `max(total_time_seconds, 1)`: floor the denominator at 1. -/
def totalTimeSeconds (df : List RequestRecord) : ℚ := max (spanSeconds df) 1

/-- Embedding of `round(len(df) / total_time_seconds, 2)`. -/
def requestsPerSecond (df : List RequestRecord) : ℚ :=
  round2 ((df.length : ℚ) / totalTimeSeconds df)

/-- The `response_time_ms` column. -/
def responseTimes (df : List RequestRecord) : List ℚ :=
  df.map (·.response_time_ms)

/-- Embedding of `round(df['response_time_ms'].quantile(0.95), 2)`. -/
def p95ResponseTime (df : List RequestRecord) : ℚ :=
  round2 (quantileQ (responseTimes df) (95/100))

/-- Embedding of `round(df['response_time_ms'].quantile(0.99), 2)`. -/
def p99ResponseTime (df : List RequestRecord) : ℚ :=
  round2 (quantileQ (responseTimes df) (99/100))

/-! ## `DashboardEngine.detect_anomalies`: slow requests -/

/-- Embedding of `df['response_time_ms'].mean()`. -/
def meanRT (df : List RequestRecord) : ℚ := qmean (responseTimes df)

/-- Sum of squared deviations of `response_time_ms` from its mean. -/
def sqDevSumRT (df : List RequestRecord) : ℚ :=
  (df.map (fun r => (r.response_time_ms - meanRT df) ^ 2)).sum

/-- Embedding of `df['response_time_ms'].std() ** 2`: pandas `Series.std()` uses `ddof=1`
(Bessel-corrected sample variance), so the divisor is `n − 1`. -/
def sampleVarRT (df : List RequestRecord) : ℚ :=
  sqDevSumRT df / ((df.length : ℚ) - 1)

/-- The slow-request threshold the code computes:
`mean + 3 * std` with the *sample* (`ddof=1`) standard deviation. -/
noncomputable def thresholdRT (df : List RequestRecord) : ℝ :=
  (meanRT df : ℝ) + 3 * Real.sqrt ((sampleVarRT df : ℚ) : ℝ)

/-- Modelled from the spec: the threshold the specification describes, with
the *population* standard deviation (divisor `n`). -/
noncomputable def specPopThresholdRT (df : List RequestRecord) : ℝ :=
  (meanRT df : ℝ) + 3 * Real.sqrt (((sqDevSumRT df / (df.length : ℚ) : ℚ) : ℝ))

/-- Embedding of `(df['response_time_ms'] > threshold_rt).sum()`: the count of records
strictly above the threshold, expressed through the square-free decidable
characterisation `x > mean ∧ (x − mean)² > 9·var` (equivalent to
`x > mean + 3·√var` whenever `var ≥ 0`; see `slowRequestCount_counts_above`). -/
def slowRequestCount (df : List RequestRecord) : ℕ :=
  df.countP (fun r => decide (meanRT df < r.response_time_ms ∧
    9 * sampleVarRT df < (r.response_time_ms - meanRT df) ^ 2))

/-- The same count phrased directly against the real-valued threshold. -/
noncomputable def slowCountAboveThreshold (df : List RequestRecord) : ℕ :=
  df.countP (fun r =>
    @decide (thresholdRT df < (r.response_time_ms : ℝ)) (Classical.propDecidable _))

/-! ## `DashboardEngine.detect_anomalies`: hourly error spikes -/

/-- Embedding of `timestamp.dt.hour`: hour of day (0–23) from epoch milliseconds. -/
def hourOf (r : RequestRecord) : ℕ := r.timestampMs / 3600000 % 24

/-- The distinct hour buckets present in the dataset (`groupby` keys; the
order of the distinct keys is not load-bearing for any claim here). -/
def hoursOf (df : List RequestRecord) : List ℕ := (df.map hourOf).dedup

/-- Per-hour error rate `(x['status_code'] >= 400).mean() * 100` for one hour
bucket. -/
def errRate (df : List RequestRecord) (h : ℕ) : ℚ :=
  100 * qmean ((df.filter (fun r => decide (hourOf r = h))).map
    (fun r => if 400 ≤ r.status_code then (1 : ℚ) else 0))

/-- The list of per-hour error rates, one per hour bucket present. -/
def hourlyErrorRates (df : List RequestRecord) : List ℚ :=
  (hoursOf df).map (errRate df)

/-- Embedding of `hourly_errors[hourly_errors > hourly_errors.mean() * 2].round(2)`:
hours whose error rate strictly exceeds twice the mean of the hourly rates,
with their rounded rates. -/
def errorSpikeHours (df : List RequestRecord) : List (ℕ × ℚ) :=
  ((hoursOf df).filter
      (fun h => decide (qmean (hourlyErrorRates df) * 2 < errRate df h))).map
    (fun h => (h, round2 (errRate df h)))

/-! ## `DashboardEngine.compute_server_kpis`: hot-server lists -/

/-- The distinct `server_id` values of the server-metrics dataset. -/
def serverIds (df : List ServerMetricRecord) : List String :=
  (df.map (·.server_id)).dedup

/-- Per-server mean of `cpu_usage_percent` (the `groupby("server_id").agg` mean). -/
def meanCpuOf (df : List ServerMetricRecord) (sid : String) : ℚ :=
  qmean ((df.filter (fun r => decide (r.server_id = sid))).map (·.cpu_usage_percent))

/-- Per-server mean of `memory_usage_percent`. -/
def meanMemOf (df : List ServerMetricRecord) (sid : String) : ℚ :=
  qmean ((df.filter (fun r => decide (r.server_id = sid))).map (·.memory_usage_percent))

/-- Per-server mean of `requests_per_second`. -/
def meanRpsOf (df : List ServerMetricRecord) (sid : String) : ℚ :=
  qmean ((df.filter (fun r => decide (r.server_id = sid))).map (·.requests_per_second))

/-- Embedding of `server_util[server_util["cpu_usage_percent"] > 80].index.tolist()`:
note that `server_util` holds the per-server means already rounded to two
decimals (`.round(2)` is applied to the aggregation before the comparison). -/
def highCpuServers (df : List ServerMetricRecord) : List String :=
  (serverIds df).filter (fun sid => decide ((80 : ℚ) < round2 (meanCpuOf df sid)))

/-- Embedding of `server_util[server_util["memory_usage_percent"] > 80].index.tolist()`. -/
def highMemoryServers (df : List ServerMetricRecord) : List String :=
  (serverIds df).filter (fun sid => decide ((80 : ℚ) < round2 (meanMemOf df sid)))

/-! ## Remaining KPI fields and the engine state -/

/-- pandas `Series.value_counts().to_dict()`: distinct value → occurrence count
(pandas orders the dict by descending count; the order of entries is not
load-bearing for any claim here). -/
def countsOf {β : Type} [DecidableEq β] (l : List β) : List (β × ℕ) :=
  l.dedup.map (fun v => (v, l.count v))

/-- Maximum of a rational column (`Series.max()` on a nonempty column). -/
def qmax (l : List ℚ) : ℚ :=
  match l with
  | [] => 0
  | x :: xs => xs.foldr max x

/-- Banker's rounding on the reals (for the one real-valued report field). -/
noncomputable def roundHalfEvenR (x : ℝ) : ℤ :=
  if x - ⌊x⌋ < 1/2 then ⌊x⌋
  else if 1/2 < x - ⌊x⌋ then ⌊x⌋ + 1
  else if ⌊x⌋ % 2 = 0 then ⌊x⌋ else ⌊x⌋ + 1

/-- Python `round(x, 2)` on the reals. -/
noncomputable def round2R (x : ℝ) : ℝ := (roundHalfEvenR (100 * x) : ℝ) / 100

/-- The dictionary returned by `compute_request_kpis`. -/
structure RequestKpis where
  total_requests : ℕ
  requests_per_second : ℚ
  average_response_time_ms : ℚ
  p95_response_time_ms : ℚ
  p99_response_time_ms : ℚ
  error_rate_percent : ℚ
  retry_rate_avg : ℚ
  retry_rate_p95 : ℚ
  total_bytes_transferred : ℤ
  average_bytes_per_request : ℚ
  region_distribution : List (String × ℕ)
  method_distribution : List (String × ℕ)
  status_code_distribution : List (ℤ × ℕ)
deriving DecidableEq

/-- The body of `compute_request_kpis` on a loaded dataframe. -/
def buildRequestKpis (df : List RequestRecord) : RequestKpis where
  total_requests := df.length
  requests_per_second := requestsPerSecond df
  average_response_time_ms := round2 (qmean (responseTimes df))
  p95_response_time_ms := p95ResponseTime df
  p99_response_time_ms := p99ResponseTime df
  error_rate_percent :=
    round2 (qmean (df.map (fun r => if 400 ≤ r.status_code then (1 : ℚ) else 0)) * 100)
  retry_rate_avg := round3 (qmean (df.map (·.retry_rate)))
  retry_rate_p95 := round3 (quantileQ (df.map (·.retry_rate)) (95/100))
  total_bytes_transferred := (df.map (·.bytes_sent)).sum
  average_bytes_per_request := round2 (qmean (df.map (fun r => (r.bytes_sent : ℚ))))
  region_distribution := countsOf (df.map (·.region))
  method_distribution := countsOf (df.map (·.request_method))
  status_code_distribution := countsOf (df.map (·.status_code))

/-- The dictionary returned by `compute_server_kpis`. -/
structure ServerKpis where
  average_cpu_usage : ℚ
  max_cpu_usage : ℚ
  average_memory_usage : ℚ
  max_memory_usage : ℚ
  total_active_connections : ℤ
  average_requests_per_second : ℚ
  backend_health_failures_total : ℤ
  backend_health_failures_by_server : List (String × ℤ)
  total_network_in_gb : ℚ
  total_network_out_gb : ℚ
  high_cpu_servers : List String
  high_memory_servers : List String
  server_utilization : List (String × ℚ × ℚ × ℚ)
deriving DecidableEq

/-- The body of `compute_server_kpis` on a loaded dataframe. -/
def buildServerKpis (df : List ServerMetricRecord) : ServerKpis where
  average_cpu_usage := round2 (qmean (df.map (·.cpu_usage_percent)))
  max_cpu_usage := round2 (qmax (df.map (·.cpu_usage_percent)))
  average_memory_usage := round2 (qmean (df.map (·.memory_usage_percent)))
  max_memory_usage := round2 (qmax (df.map (·.memory_usage_percent)))
  total_active_connections := (df.map (·.active_connections)).sum
  average_requests_per_second := round2 (qmean (df.map (·.requests_per_second)))
  backend_health_failures_total := (df.map (·.backend_health_failures)).sum
  backend_health_failures_by_server :=
    (serverIds df).map (fun sid =>
      (sid, ((df.filter (fun r => decide (r.server_id = sid))).map
        (·.backend_health_failures)).sum))
  total_network_in_gb := round2 ((df.map (·.network_in_mbps)).sum * 3600 / (8 * 1024))
  total_network_out_gb := round2 ((df.map (·.network_out_mbps)).sum * 3600 / (8 * 1024))
  high_cpu_servers := highCpuServers df
  high_memory_servers := highMemoryServers df
  server_utilization :=
    (serverIds df).map (fun sid =>
      (sid, round2 (meanCpuOf df sid), round2 (meanMemOf df sid),
        round2 (meanRpsOf df sid)))

/-- Mean `response_time_ms` of one hour bucket. -/
def hourAvgLat (df : List RequestRecord) (h : ℕ) : ℚ :=
  qmean ((df.filter (fun r => decide (hourOf r = h))).map (·.response_time_ms))

/-- Day-of-week name from epoch milliseconds (1970-01-01 was a Thursday). -/
def dayNameOf (r : RequestRecord) : String :=
  ["Thursday", "Friday", "Saturday", "Sunday", "Monday", "Tuesday",
    "Wednesday"].getD (r.timestampMs / 86400000 % 7) ""

/-- The dictionary returned by `compute_traffic_patterns`. -/
structure TrafficPatterns where
  hourly_traffic_volume : List (ℕ × ℕ)
  daily_traffic_volume : List (String × ℕ)
  hourly_avg_latency : List (ℕ × ℚ)
  top_latency_hours : List (ℕ × ℚ)
deriving DecidableEq

/-- The body of `compute_traffic_patterns` on a loaded dataframe. -/
def buildTrafficPatterns (df : List RequestRecord) : TrafficPatterns where
  hourly_traffic_volume :=
    (hoursOf df).map (fun h => (h, (df.filter (fun r => decide (hourOf r = h))).length))
  daily_traffic_volume :=
    ((df.map dayNameOf).dedup).map (fun d =>
      (d, (df.filter (fun r => decide (dayNameOf r = d))).length))
  hourly_avg_latency := (hoursOf df).map (fun h => (h, round2 (hourAvgLat df h)))
  top_latency_hours :=
    ((((hoursOf df).map (fun h => (h, hourAvgLat df h))).insertionSort
        (fun a b => b.2 ≤ a.2)).take 5).map (fun p => (p.1, round2 p.2))

/-- The dictionary returned by `detect_anomalies`. -/
structure Anomalies where
  slow_request_threshold_ms : ℝ
  slow_request_count : ℕ
  error_spike_hours : List (ℕ × ℚ)
  server_health_failures_above_5 : List String

/-- The body of `detect_anomalies` on loaded dataframes. -/
noncomputable def buildAnomalies (dfr : List RequestRecord)
    (dfs : List ServerMetricRecord) : Anomalies where
  slow_request_threshold_ms := round2R (thresholdRT dfr)
  slow_request_count := slowRequestCount dfr
  error_spike_hours := errorSpikeHours dfr
  server_health_failures_above_5 :=
    ((dfs.filter (fun r => decide (5 < r.backend_health_failures))).map
      (·.server_id)).dedup

/-- The single error kind of the analytics layer: a computation was invoked
before its required dataset was loaded (`ValueError` in the code). -/
inductive DashError where
  | datasetNotLoaded
deriving DecidableEq

/-- The `DashboardEngine` state: the two optionally-loaded dataframes. -/
structure Engine where
  request_logs : Option (List RequestRecord)
  server_metrics : Option (List ServerMetricRecord)

/-- Embedding of `compute_request_kpis`: raises when request logs are absent; otherwise
computes the KPI dictionary and leaves the engine state untouched. -/
def computeRequestKpis (e : Engine) : Except DashError (RequestKpis × Engine) :=
  match e.request_logs with
  | none => .error .datasetNotLoaded
  | some df => .ok (buildRequestKpis df, e)

/-- Embedding of `compute_server_kpis`. -/
def computeServerKpis (e : Engine) : Except DashError (ServerKpis × Engine) :=
  match e.server_metrics with
  | none => .error .datasetNotLoaded
  | some df => .ok (buildServerKpis df, e)

/-- Embedding of `compute_traffic_patterns`. -/
def computeTrafficPatterns (e : Engine) : Except DashError (TrafficPatterns × Engine) :=
  match e.request_logs with
  | none => .error .datasetNotLoaded
  | some df => .ok (buildTrafficPatterns df, e)

/-- Embedding of `detect_anomalies`: requires both dataframes. -/
noncomputable def detectAnomalies (e : Engine) : Except DashError (Anomalies × Engine) :=
  match e.request_logs, e.server_metrics with
  | some dfr, some dfs => .ok (buildAnomalies dfr dfs, e)
  | _, _ => .error .datasetNotLoaded

/-- The `report_metadata` of the comprehensive report. -/
structure ReportMetadata where
  generated_at : ℕ
  request_log_entries : ℕ
  server_metric_entries : ℕ
  time_range_start : ℕ
  time_range_end : ℕ
deriving DecidableEq

/-- The assembled comprehensive report. -/
structure AnalyticsReport where
  report_metadata : ReportMetadata
  request_kpis : RequestKpis
  server_kpis : ServerKpis
  traffic_patterns : TrafficPatterns
  anomalies : Anomalies

/-- Embedding of `generate_comprehensive_report`: requires both dataframes, then invokes
the four computations in sequence on the (unchanged) engine state; `now` is
the wall-clock timestamp `datetime.now()` recorded in the metadata. -/
noncomputable def generateComprehensiveReport (now : ℕ) (e : Engine) :
    Except DashError (AnalyticsReport × Engine) :=
  match e.request_logs, e.server_metrics with
  | some dfr, some dfs =>
      (computeRequestKpis e).bind fun rk =>
      (computeServerKpis rk.2).bind fun sk =>
      (computeTrafficPatterns sk.2).bind fun tp =>
      (detectAnomalies tp.2).map fun an =>
        ({ report_metadata :=
             { generated_at := now
               request_log_entries := dfr.length
               server_metric_entries := dfs.length
               time_range_start := natMin (dfr.map (·.timestampMs))
               time_range_end := natMax (dfr.map (·.timestampMs)) }
           request_kpis := rk.1
           server_kpis := sk.1
           traffic_patterns := tp.1
           anomalies := an.1 }, an.2)
  | _, _ => .error .datasetNotLoaded

/-! ## `SQLDataWarehouse._batch_insert`

The database environment is modelled by a failure oracle
`fail : ℕ → Option ℕ`: on attempt `k`, `fail k = none` means the attempt
runs to the final commit successfully, and `fail k = some j` means an
exception is raised after exactly `j` batches of the attempt have been fully
processed (`j = 0`: the connection itself, or the first batch, fails;
`j ≥` the number of batches: the commit fails). An attempt that fails is
rolled back by the `with` connection context, but the Python accumulator
`total_inserted` lives *outside* the retry loop, so a failed attempt still
leaves its partial batch count behind — the model reproduces this. -/

/-- The error surfaced after the retries are exhausted. -/
inductive StoreError where
  | storeFailure
deriving DecidableEq

/-- The observable outcome of one `_batch_insert` call: the returned count or
raised error, the number of write attempts made, and the backoff sleeps
performed between attempts (in order). -/
structure InsertRun where
  result : Except StoreError ℕ
  attempts : ℕ
  delays : List ℕ

/-- Number of records of the first `j` batches when `n` records are split
into contiguous batches of size `bs` (the increments `total_inserted +=
len(batch)` accumulated before a failure in batch `j`). -/
def partialBatchCount (bs n j : ℕ) : ℕ := min (j * bs) n

/-- The retry loop of `_batch_insert`. `fuel` is the number of loop
iterations remaining (`retry_attempts - attempt`); `attempt` is the 0-indexed
attempt counter; `acc` is the accumulated `total_inserted` so far. On a
successful attempt every batch is processed, adding exactly `n` to the
accumulator, and the accumulator is returned; on the last failed attempt the
error is re-raised; otherwise the loop sleeps `2 ** attempt` and retries with
the accumulator retaining the failed attempt's partial count. -/
def batchInsertGo (bs n : ℕ) (fail : ℕ → Option ℕ) :
    ℕ → ℕ → ℕ → InsertRun
  | 0, _, acc => { result := .ok acc, attempts := 0, delays := [] }
  | 1, attempt, acc =>
      match fail attempt with
      | none => { result := .ok (acc + n), attempts := 1, delays := [] }
      | some _ => { result := .error .storeFailure, attempts := 1, delays := [] }
  | fuel + 2, attempt, acc =>
      match fail attempt with
      | none => { result := .ok (acc + n), attempts := 1, delays := [] }
      | some j =>
          let rest := batchInsertGo bs n fail (fuel + 1) (attempt + 1)
            (acc + partialBatchCount bs n j)
          { result := rest.result
            attempts := rest.attempts + 1
            delays := 2 ^ attempt :: rest.delays }

/-- Embedding of `_batch_insert(insert_sql, records, ...)` with `self.retry_attempts =
retry` and `self.batch_size = bs` (defaults 3 and 1000). -/
def batchInsert (retry bs : ℕ) {α : Type} (records : List α)
    (fail : ℕ → Option ℕ) : InsertRun :=
  batchInsertGo bs records.length fail retry 0 0

/-- Embedding of `insert_request_logs` / `insert_server_metrics`: empty input
short-circuits to a zero count without touching the database. -/
def insertRecords (retry bs : ℕ) {α : Type} (records : List α)
    (fail : ℕ → Option ℕ) : InsertRun :=
  if records.isEmpty then { result := .ok 0, attempts := 0, delays := [] }
  else batchInsert retry bs records fail

/-! ## `SQLDataWarehouse.store_analytics_report` -/

/-- The `request_kpis` sub-dictionary of a report payload, as far as
`store_analytics_report` inspects it. -/
structure KpisDict where
  total_requests : Option ℤ
deriving DecidableEq

/-- A report payload, as far as `store_analytics_report` inspects it:
`'request_kpis' in report_data` and `report_data['request_kpis']
.get('total_requests', 0)`. -/
structure ReportData where
  request_kpis : Option KpisDict
deriving DecidableEq

/-- The `record_count` annotation computed before the insert. -/
def recordCountOf (rd : ReportData) : ℤ :=
  match rd.request_kpis with
  | none => 0
  | some k => k.total_requests.getD 0

/-- One row of the `AnalyticsReports` table. -/
structure ReportRow where
  report_timestamp : ℕ
  report_type : String
  report_data : ReportData
  processing_time_ms : Option ℤ
  record_count : ℤ
deriving DecidableEq

/-- The warehouse state visible to `store_analytics_report`. -/
structure Warehouse where
  analytics_reports : List ReportRow
deriving DecidableEq

/-- Embedding of `store_analytics_report`: a single single-statement transaction with no
retry wrapper; the surrounding `try/except` converts any failure (modelled by
the `fails` flag: connection or statement error) into a `False` return with
the transaction rolled back, and a committed insert into a `True` return. -/
def storeAnalyticsReport (now : ℕ) (rd : ReportData) (rt : String)
    (ptms : Option ℤ) (fails : Bool) (w : Warehouse) : Bool × Warehouse :=
  let row : ReportRow :=
    { report_timestamp := now
      report_type := rt
      report_data := rd
      processing_time_ms := ptms
      record_count := recordCountOf rd }
  if fails then (false, w)
  else (true, { analytics_reports := w.analytics_reports ++ [row] })

/-! ## Concrete datasets used by witnesses and counterexamples -/

/-- A request record with a given timestamp, status code and response time. -/
def mkReq (t : ℕ) (st : ℤ) (rt : ℚ) : RequestRecord where
  timestampMs := t
  server_id := "lb-01"
  region := "us-east"
  request_method := "GET"
  status_code := st
  response_time_ms := rt
  retry_rate := 0
  bytes_sent := 512

/-- A server-metric record with a given server id and cpu percentage. -/
def mkSrv (sid : String) (cpu : ℚ) : ServerMetricRecord where
  timestampMs := 0
  server_id := sid
  cpu_usage_percent := cpu
  memory_usage_percent := 50
  disk_usage_percent := 10
  network_in_mbps := 1
  network_out_mbps := 1
  active_connections := 3
  requests_per_second := 7
  backend_health_failures := 0

/-! ## Claim theorems -/

/-- C7: for every non-empty request dataset, `requests_per_second` equals
`round(total_requests / max(1, span_seconds), 2)` where `span_seconds` is the
timestamp span in seconds; the denominator is strictly positive (and the span
itself never negative), and a zero-span dataset yields
`round(total_requests / 1, 2)`. -/
theorem requests_per_second_floored_denominator (df : List RequestRecord)
    (h : df ≠ []) :
    requestsPerSecond df = round2 ((df.length : ℚ) / max 1 (spanSeconds df)) ∧
    0 < max 1 (spanSeconds df) ∧ 0 ≤ spanSeconds df ∧
    (spanSeconds df = 0 → requestsPerSecond df = round2 ((df.length : ℚ) / 1)) := by
  have hspan : 0 ≤ spanSeconds df := by unfold spanSeconds; positivity
  refine ⟨?_, ?_, hspan, ?_⟩
  · unfold requestsPerSecond totalTimeSeconds
    rw [max_comm]
  · exact lt_max_of_lt_left one_pos
  · intro h0
    unfold requestsPerSecond totalTimeSeconds
    rw [h0]
    norm_num

/-- Witness for C7 at a concrete two-record dataset. -/
theorem requests_per_second_floored_denominator_witness :
    ([mkReq 0 200 5, mkReq 2000 200 9] ≠ ([] : List RequestRecord)) ∧
    (requestsPerSecond [mkReq 0 200 5, mkReq 2000 200 9] =
        round2 ((([mkReq 0 200 5, mkReq 2000 200 9] : List RequestRecord).length : ℚ) /
          max 1 (spanSeconds [mkReq 0 200 5, mkReq 2000 200 9])) ∧
      0 < max 1 (spanSeconds [mkReq 0 200 5, mkReq 2000 200 9]) ∧
      0 ≤ spanSeconds [mkReq 0 200 5, mkReq 2000 200 9] ∧
      (spanSeconds [mkReq 0 200 5, mkReq 2000 200 9] = 0 →
        requestsPerSecond [mkReq 0 200 5, mkReq 2000 200 9] =
          round2 ((([mkReq 0 200 5, mkReq 2000 200 9] : List RequestRecord).length : ℚ) / 1))) :=
  ⟨by simp, requests_per_second_floored_denominator _ (by simp)⟩

/-- Auxiliary: with no error-status record anywhere, every hourly error rate
is zero. -/
theorem errRate_eq_zero_of_no_errors (df : List RequestRecord)
    (h : ∀ r ∈ df, r.status_code < 400) (hr : ℕ) : errRate df hr = 0 := by
  unfold errRate qmean
  have hz : ((df.filter (fun r => decide (hourOf r = hr))).map
      (fun r => if 400 ≤ r.status_code then (1 : ℚ) else 0)).sum = 0 := by
    apply List.sum_eq_zero
    intro x hx
    obtain ⟨r, hrr, hrx⟩ := List.mem_map.mp hx
    have hrd : r ∈ df := (List.mem_filter.mp hrr).1
    rw [← hrx, if_neg (not_le.mpr (h r hrd))]
  rw [hz, zero_div, mul_zero]

/-- C6: if no request has `status_code ≥ 400`, the mean hourly error rate is
zero and `error_spike_hours` is empty (no hour strictly exceeds twice a zero
mean). -/
theorem error_spike_hours_empty_without_errors (df : List RequestRecord)
    (h : ∀ r ∈ df, r.status_code < 400) : errorSpikeHours df = [] := by
  unfold errorSpikeHours
  have hmean : qmean (hourlyErrorRates df) = 0 := by
    unfold hourlyErrorRates qmean
    rw [List.sum_eq_zero, zero_div]
    intro x hx
    obtain ⟨hr, _, hrx⟩ := List.mem_map.mp hx
    rw [← hrx, errRate_eq_zero_of_no_errors df h hr]
  have hfilter : (hoursOf df).filter
      (fun hr => decide (qmean (hourlyErrorRates df) * 2 < errRate df hr)) = [] := by
    apply List.filter_eq_nil.mpr
    intro hr _
    rw [hmean, errRate_eq_zero_of_no_errors df h hr]
    norm_num
  rw [hfilter, List.map_nil]

/-- Witness for C6: a dataset whose only statuses are 200 and 302. -/
theorem error_spike_hours_empty_without_errors_witness :
    (∀ r ∈ [mkReq 0 200 5, mkReq 7200000 302 9], r.status_code < 400) ∧
    errorSpikeHours [mkReq 0 200 5, mkReq 7200000 302 9] = [] := by
  have h : ∀ r ∈ [mkReq 0 200 5, mkReq 7200000 302 9], r.status_code < 400 := by
    intro r hr
    simp only [List.mem_cons, List.not_mem_nil, or_false] at hr
    rcases hr with rfl | rfl <;> norm_num [mkReq]
  exact ⟨h, error_spike_hours_empty_without_errors _ h⟩

/-- Counterexample to C4 as stated: one server whose mean cpu is 80.004,
strictly above 80, yet `high_cpu_servers` is empty because the code rounds
the per-server mean to two decimals (80.0) before comparing with 80. -/
theorem high_cpu_counterexample_rounding :
    (80 : ℚ) < meanCpuOf [mkSrv "s1" 80.004] "s1" ∧
    "s1" ∈ serverIds [mkSrv "s1" 80.004] ∧
    highCpuServers [mkSrv "s1" 80.004] = [] := by
  refine ⟨?_, ?_, ?_⟩
  · norm_num [meanCpuOf, qmean, mkSrv]
  · simp [serverIds, mkSrv]
  · have hmean : meanCpuOf [mkSrv "s1" 80.004] "s1" = 80.004 := by
      norm_num [meanCpuOf, qmean, mkSrv]
    have hround : round2 (80.004 : ℚ) = 80 := by
      norm_num [round2, roundHalfEven, Int.fract]
    have hproj : (mkSrv "s1" 80.004).server_id = "s1" := rfl
    simp [highCpuServers, serverIds, hproj, hmean, hround]

/-- C4 (amended): `high_cpu_servers` / `high_memory_servers` contain exactly
the server_ids whose per-server mean utilization, rounded to 2 decimals,
is strictly greater than 80.0; a server whose rounded mean equals 80.0
exactly is excluded. -/
theorem high_utilization_servers_characterization (df : List ServerMetricRecord)
    (h : df ≠ []) :
    (∀ sid, sid ∈ highCpuServers df ↔
      sid ∈ serverIds df ∧ 80 < round2 (meanCpuOf df sid)) ∧
    (∀ sid, sid ∈ highMemoryServers df ↔
      sid ∈ serverIds df ∧ 80 < round2 (meanMemOf df sid)) ∧
    (∀ sid, round2 (meanCpuOf df sid) = 80 → sid ∉ highCpuServers df) ∧
    (∀ sid, round2 (meanMemOf df sid) = 80 → sid ∉ highMemoryServers df) := by
  refine ⟨?_, ?_, ?_, ?_⟩
  · intro sid
    simp [highCpuServers, List.mem_filter]
  · intro sid
    simp [highMemoryServers, List.mem_filter]
  · intro sid heq hmem
    have := (List.mem_filter.mp hmem).2
    rw [heq] at this
    simp at this
  · intro sid heq hmem
    have := (List.mem_filter.mp hmem).2
    rw [heq] at this
    simp at this

/-- Witness for C4 (amended) at a concrete dataset: the 81.5-mean server is
flagged and the 80.004-mean server is not. -/
theorem high_utilization_servers_characterization_witness :
    ([mkSrv "s1" 80.004, mkSrv "s2" 81.5] ≠ ([] : List ServerMetricRecord)) ∧
    ("s2" ∈ highCpuServers [mkSrv "s1" 80.004, mkSrv "s2" 81.5] ↔
      "s2" ∈ serverIds [mkSrv "s1" 80.004, mkSrv "s2" 81.5] ∧
        80 < round2 (meanCpuOf [mkSrv "s1" 80.004, mkSrv "s2" 81.5] "s2")) :=
  ⟨by simp,
    (high_utilization_servers_characterization _ (by simp)).1 "s2"⟩

/-- C10: `store_analytics_report` returns `False` on any failure leaving the
warehouse untouched, returns `True` after committing exactly one report row,
and annotates the row with `record_count` equal to the report's
`request_kpis.total_requests` when present and 0 otherwise; no exception
reaches the caller (the embedding is a total function into `Bool`). -/
theorem store_analytics_report_contract :
    ∀ (now : ℕ) (rd : ReportData) (rt : String) (ptms : Option ℤ) (w : Warehouse),
    storeAnalyticsReport now rd rt ptms true w = (false, w) ∧
    storeAnalyticsReport now rd rt ptms false w =
      (true, ⟨w.analytics_reports ++
        [⟨now, rt, rd, ptms, recordCountOf rd⟩]⟩) ∧
    (∀ n : ℤ, recordCountOf ⟨some ⟨some n⟩⟩ = n) ∧
    recordCountOf ⟨none⟩ = 0 ∧
    recordCountOf ⟨some ⟨none⟩⟩ = 0 :=
  fun _ _ _ _ _ => ⟨rfl, rfl, fun _ => rfl, rfl, rfl⟩

/-- C8: each analytics computation raises the "dataset not loaded"
precondition error exactly when its required dataframe is absent — request
KPIs and traffic patterns need the request logs, server KPIs need the server
metrics, anomaly detection and the comprehensive report need both — and for
loaded data of any values the computation succeeds (no value-range
validation). -/
theorem precondition_error_iff_dataset_absent (e : Engine) (now : ℕ) :
    (computeRequestKpis e = .error .datasetNotLoaded ↔ e.request_logs = none) ∧
    (computeTrafficPatterns e = .error .datasetNotLoaded ↔ e.request_logs = none) ∧
    (computeServerKpis e = .error .datasetNotLoaded ↔ e.server_metrics = none) ∧
    (detectAnomalies e = .error .datasetNotLoaded ↔
      (e.request_logs = none ∨ e.server_metrics = none)) ∧
    (generateComprehensiveReport now e = .error .datasetNotLoaded ↔
      (e.request_logs = none ∨ e.server_metrics = none)) := by
  obtain ⟨rl, sm⟩ := e
  cases rl <;> cases sm <;>
    simp [computeRequestKpis, computeTrafficPatterns, computeServerKpis,
      detectAnomalies, generateComprehensiveReport, Except.bind, Except.map]

/-- C5: the 95th-percentile response time never exceeds the 99th-percentile
response time of the same sample — the linear-interpolation quantile is
monotone in the level and the two-decimal rounding preserves order. -/
theorem p95_le_p99_response_time (df : List RequestRecord) (h : df ≠ []) :
    p95ResponseTime df ≤ p99ResponseTime df := by
  unfold p95ResponseTime p99ResponseTime
  apply round2_mono
  apply quantileQ_mono
  · simp [responseTimes, h]
  · norm_num
  · norm_num
  · norm_num

/-- Witness for C5 at a concrete three-record dataset. -/
theorem p95_le_p99_response_time_witness :
    ([mkReq 0 200 9, mkReq 1000 200 3, mkReq 2000 500 27] ≠ ([] : List RequestRecord)) ∧
    p95ResponseTime [mkReq 0 200 9, mkReq 1000 200 3, mkReq 2000 500 27] ≤
      p99ResponseTime [mkReq 0 200 9, mkReq 1000 200 3, mkReq 2000 500 27] :=
  ⟨by simp, p95_le_p99_response_time _ (by simp)⟩

/-- Auxiliary for C3: under a permanently failing store, the retry loop of
`_batch_insert` uses all its fuel, raises at the end, and sleeps
`2 ^ attempt` between consecutive attempts. -/
theorem batchInsertGo_permanent_failure (bs n : ℕ) (fail : ℕ → Option ℕ)
    (hfail : ∀ k, (fail k).isSome) :
    ∀ fuel attempt acc, 1 ≤ fuel →
      (batchInsertGo bs n fail fuel attempt acc).result = .error .storeFailure ∧
      (batchInsertGo bs n fail fuel attempt acc).attempts = fuel ∧
      (batchInsertGo bs n fail fuel attempt acc).delays =
        (List.range (fuel - 1)).map (fun i => 2 ^ (attempt + i)) := by
  intro fuel
  induction fuel with
  | zero => intro _ _ h; omega
  | succ f ih =>
      intro attempt acc _
      obtain ⟨j, hj⟩ := Option.isSome_iff_exists.mp (hfail attempt)
      cases f with
      | zero =>
          simp [batchInsertGo, hj]
      | succ m =>
          have hrec := ih (attempt + 1) (acc + partialBatchCount bs n j) (by omega)
          simp only [batchInsertGo, hj]
          refine ⟨hrec.1, by rw [hrec.2.1], ?_⟩
          rw [hrec.2.2]
          rw [show m + 1 + 1 - 1 = m + 1 from rfl, List.range_succ_eq_map,
            List.map_cons, List.map_map]
          simp only [Nat.add_zero, Nat.add_sub_cancel]
          congr 1
          apply List.map_congr_left
          intro i _
          simp only [Function.comp_apply]
          congr 1
          omega

/-- C3: on an input where the store fails permanently, `_batch_insert` makes
exactly `retry_attempts` attempts, sleeps `2 ^ attempt` time units after each
failed non-final attempt (a strictly increasing sequence of delays), and then
raises the final underlying error to the caller. -/
theorem batch_insert_permanent_failure {α : Type} (retry bs : ℕ)
    (records : List α) (fail : ℕ → Option ℕ)
    (hretry : 1 ≤ retry) (hfail : ∀ k, (fail k).isSome) :
    (batchInsert retry bs records fail).result = .error .storeFailure ∧
    (batchInsert retry bs records fail).attempts = retry ∧
    (batchInsert retry bs records fail).delays =
      (List.range (retry - 1)).map (fun k => 2 ^ k) ∧
    (batchInsert retry bs records fail).delays.Pairwise (· < ·) := by
  have h := batchInsertGo_permanent_failure bs records.length fail hfail retry 0 0 hretry
  have hdel : (batchInsert retry bs records fail).delays =
      (List.range (retry - 1)).map (fun k => 2 ^ k) := by
    unfold batchInsert
    rw [h.2.2]
    simp
  refine ⟨h.1, h.2.1, hdel, ?_⟩
  rw [hdel]
  apply List.Pairwise.map
  · intro a b hab
    exact Nat.pow_lt_pow_right (by norm_num) hab
  · exact List.pairwise_lt_range _

/-- Witness for C3: three attempts against an always-failing store on a
two-record input, with delays 1 and 2. -/
theorem batch_insert_permanent_failure_witness :
    ((1 : ℕ) ≤ 3 ∧ ∀ k : ℕ, ((fun _ : ℕ => (some 0 : Option ℕ)) k).isSome) ∧
    ((batchInsert 3 1000 ([10, 20] : List ℕ) (fun _ => some 0)).result =
        .error .storeFailure ∧
      (batchInsert 3 1000 ([10, 20] : List ℕ) (fun _ => some 0)).attempts = 3 ∧
      (batchInsert 3 1000 ([10, 20] : List ℕ) (fun _ => some 0)).delays =
        (List.range (3 - 1)).map (fun k => 2 ^ k) ∧
      (batchInsert 3 1000 ([10, 20] : List ℕ) (fun _ => some 0)).delays.Pairwise
        (· < ·)) :=
  ⟨⟨by norm_num, fun _ => rfl⟩,
    batch_insert_permanent_failure 3 1000 [10, 20] (fun _ => some 0)
      (by norm_num) (fun _ => rfl)⟩

/-- Exhibit for C2 (a bug in the code): with `batch_size = 1` and a
two-record input, an attempt that fails while processing the second batch
(after the first batch's length was already accumulated) followed by a fully
successful retry makes `_batch_insert` return 3, although only the 2 records
of the committed attempt were durably written — the `total_inserted`
accumulator is initialised outside the retry loop. -/
theorem batch_insert_overcount_after_retry :
    (batchInsert 3 1 ([10, 20] : List ℕ)
        (fun k => if k = 0 then some 1 else none)).result = .ok 3 ∧
    ([10, 20] : List ℕ).length = 2 :=
  ⟨rfl, rfl⟩

/-- Auxiliary for C1: `x` lies strictly above `m + 3·√v` exactly when it lies
strictly above `m` with squared deviation strictly above `9·v` (for `v ≥ 0`). -/
theorem lt_mean_add_three_sqrt_iff (m v x : ℚ) (hv : 0 ≤ v) :
    ((m : ℝ) + 3 * Real.sqrt ((v : ℚ) : ℝ) < ((x : ℚ) : ℝ)) ↔
    (m < x ∧ 9 * v < (x - m) ^ 2) := by
  have hvR : (0 : ℝ) ≤ ((v : ℚ) : ℝ) := by exact_mod_cast hv
  have hs : (0 : ℝ) ≤ Real.sqrt ((v : ℚ) : ℝ) := Real.sqrt_nonneg _
  have hssq : Real.sqrt ((v : ℚ) : ℝ) ^ 2 = ((v : ℚ) : ℝ) := Real.sq_sqrt hvR
  constructor
  · intro hlt
    have hmx : (m : ℝ) < (x : ℝ) := by nlinarith
    have h3 : 3 * Real.sqrt ((v : ℚ) : ℝ) < (x : ℝ) - m := by linarith
    have hgoal : 9 * ((v : ℚ) : ℝ) < ((x : ℝ) - m) ^ 2 := by nlinarith
    refine ⟨by exact_mod_cast hmx, ?_⟩
    have : (9 : ℝ) * ((v : ℚ) : ℝ) < (((x : ℚ) : ℝ) - ((m : ℚ) : ℝ)) ^ 2 := hgoal
    exact_mod_cast this
  · rintro ⟨hmx, hsq⟩
    have hmxR : (m : ℝ) < (x : ℝ) := by exact_mod_cast hmx
    have hsqR : 9 * ((v : ℚ) : ℝ) < ((x : ℝ) - m) ^ 2 := by exact_mod_cast hsq
    have h9 : Real.sqrt (9 * ((v : ℚ) : ℝ)) < (x : ℝ) - m :=
      (Real.sqrt_lt' (by linarith)).mpr hsqR
    have hsplit : Real.sqrt (9 * ((v : ℚ) : ℝ)) = 3 * Real.sqrt ((v : ℚ) : ℝ) := by
      rw [show (9 : ℝ) * ((v : ℚ) : ℝ) = 3 ^ 2 * ((v : ℚ) : ℝ) by ring,
        Real.sqrt_mul (by positivity), Real.sqrt_sq (by norm_num)]
    linarith [hsplit ▸ h9]

/-- Auxiliary for C1: the Bessel-corrected sample variance is nonnegative on
samples of at least two records. -/
theorem sampleVarRT_nonneg (df : List RequestRecord) (h : 2 ≤ df.length) :
    0 ≤ sampleVarRT df := by
  unfold sampleVarRT
  apply div_nonneg
  · unfold sqDevSumRT
    apply List.sum_nonneg
    intro x hx
    obtain ⟨r, _, rfl⟩ := List.mem_map.mp hx
    positivity
  · have h2 : (2 : ℚ) ≤ (df.length : ℚ) := by exact_mod_cast h
    linarith

/-- Counterexample to C1 as stated: on the two-record dataset with response
times 0 and 2 the code's threshold is `1 + 3·√2` (sample standard deviation,
`ddof = 1`), while the spec's `mean + 3 × population standard deviation`
is `1 + 3·√1 = 4`; the two differ. -/
theorem slow_threshold_not_population :
    thresholdRT [mkReq 0 200 0, mkReq 1000 200 2] ≠
      specPopThresholdRT [mkReq 0 200 0, mkReq 1000 200 2] := by
  have hm : meanRT [mkReq 0 200 0, mkReq 1000 200 2] = 1 := by
    norm_num [meanRT, qmean, responseTimes, mkReq]
  have hv : sampleVarRT [mkReq 0 200 0, mkReq 1000 200 2] = 2 := by
    norm_num [sampleVarRT, sqDevSumRT, meanRT, qmean, responseTimes, mkReq]
  have hp : sqDevSumRT [mkReq 0 200 0, mkReq 1000 200 2] /
      (([mkReq 0 200 0, mkReq 1000 200 2] : List RequestRecord).length : ℚ) = 1 := by
    norm_num [sqDevSumRT, meanRT, qmean, responseTimes, mkReq]
  unfold thresholdRT specPopThresholdRT
  rw [hm, hv, hp]
  push_cast
  rw [Real.sqrt_one]
  intro heq
  have h2 : Real.sqrt 2 = 1 := by linarith
  have : (2 : ℝ) = 1 := Real.sqrt_eq_one.mp h2
  norm_num at this

/-- C1 (amended): for every request dataset with at least two records, the
threshold the code computes is `mean + 3 × sample standard deviation`
(`ddof = 1`, pandas `Series.std()`), and `slow_request_count` counts exactly
the records whose `response_time_ms` lies strictly above that threshold
(`thresholdRT` is by definition `mean + 3·√(sample variance)` and
`slowCountAboveThreshold` the count of records strictly above it). -/
theorem slow_request_count_above_code_threshold (df : List RequestRecord)
    (h : 2 ≤ df.length) : slowRequestCount df = slowCountAboveThreshold df := by
  unfold slowRequestCount slowCountAboveThreshold
  apply List.countP_congr
  intro r _
  have hiff := lt_mean_add_three_sqrt_iff (meanRT df) (sampleVarRT df)
    r.response_time_ms (sampleVarRT_nonneg df h)
  constructor
  · intro hp
    have hq := of_decide_eq_true hp
    exact decide_eq_true (show thresholdRT df < (r.response_time_ms : ℝ) from
      hiff.mpr hq)
  · intro hp
    have hq := of_decide_eq_true hp
    exact decide_eq_true (hiff.mp hq)

/-- Witness for C1 (amended) at the concrete dataset used above. -/
theorem slow_request_count_above_code_threshold_witness :
    2 ≤ ([mkReq 0 200 0, mkReq 1000 200 2] : List RequestRecord).length ∧
    slowRequestCount [mkReq 0 200 0, mkReq 1000 200 2] =
      slowCountAboveThreshold [mkReq 0 200 0, mkReq 1000 200 2] :=
  ⟨by simp, slow_request_count_above_code_threshold _ (by simp)⟩

/-- C9: `generate_comprehensive_report` leaves the engine state unchanged,
so a second call on the state produced by a first call — with any other
generation timestamp — yields a report whose `request_kpis`, `server_kpis`,
`traffic_patterns` and `anomalies` are identical to the first call's; only
the metadata timestamp can differ. -/
theorem comprehensive_report_repeatable (e : Engine) (t1 t2 : ℕ) :
    ((generateComprehensiveReport t1 e).map (fun p => p.2) =
      (generateComprehensiveReport t1 e).map (fun _ => e)) ∧
    ((generateComprehensiveReport t1 e).map
        (fun p => (p.1.request_kpis, p.1.server_kpis, p.1.traffic_patterns,
          p.1.anomalies)) =
      (generateComprehensiveReport t2 e).map
        (fun p => (p.1.request_kpis, p.1.server_kpis, p.1.traffic_patterns,
          p.1.anomalies))) := by
  obtain ⟨rl, sm⟩ := e
  cases rl <;> cases sm <;>
    simp [generateComprehensiveReport, computeRequestKpis, computeServerKpis,
      computeTrafficPatterns, detectAnomalies, Except.map, Except.bind]

end LBA
